import Mathlib

/-!
Verification of the command interpretation and dispatch engine of the
smart-factory voice assistant (src/app.py): a shallow embedding of the
state-snapshot fetcher, the query resolver (get_sensor_data), the action
dispatcher (perform_action) and the generative-extraction interpreter
(parse_command), together with theorems about the claims of the
specification.  Network effects are made explicit: each outbound call a
dispatch issues is recorded in a trace, and the remote services' replies
are inputs (a "world") to the embedded functions.  Python exceptions are
modelled with `Except`; Python truthiness of optional strings is modelled
explicitly.
-/

namespace SmartFactory

/-- A JSON-like Python value, as produced by json.loads. -/
inductive JVal where
  | null
  | jbool (b : Bool)
  | jint (n : Int)
  | jstr (s : String)
  | jarr (xs : List JVal)
  | jobj (fields : List (String × JVal))

/-- The Python exception kinds the embedded code can raise or catch. -/
inductive PyExn where
  | attributeError
  | typeError
  | indexError
  | keyError
  | jsonDecodeError
deriving DecidableEq, Repr

/-- Python str.lower() (ASCII): lowercases each character. -/
def pyLower (s : String) : String := ⟨s.data.map Char.toLower⟩

/-- Python str.replace of underscores by spaces (a one-character pattern,
so a character map is exact). -/
def replaceUnderscores (s : String) : String :=
  ⟨s.data.map (fun c => if c == '_' then ' ' else c)⟩

/-- Truthiness of an optional Python string: None and the empty string are falsy. -/
def pyTruthyStrOpt : Option String → Bool
  | none => false
  | some s => s != ""

/-- Python str() of an optional string: None prints as "None". -/
def pyStrOptS : Option String → String
  | none => "None"
  | some s => s

/-- Python str() of an optional integer: None prints as "None". -/
def pyStrOptI : Option Int → String
  | none => "None"
  | some n => toString n

mutual

/-- Python repr() of a JSON value (ASCII approximation). -/
def pyRepr : JVal → String
  | .null => "None"
  | .jbool b => if b then "True" else "False"
  | .jint n => toString n
  | .jstr s => "\'" ++ s ++ "\'"
  | .jarr xs => "[" ++ pyReprList xs ++ "]"
  | .jobj fs => "\x7b" ++ pyReprFields fs ++ "\x7d"

/-- Comma-joined reprs of a list's elements. -/
def pyReprList : List JVal → String
  | [] => ""
  | [x] => pyRepr x
  | x :: xs => pyRepr x ++ ", " ++ pyReprList xs

/-- Comma-joined reprs of a dict's items. -/
def pyReprFields : List (String × JVal) → String
  | [] => ""
  | [(k, v)] => "\'" ++ k ++ "\': " ++ pyRepr v
  | (k, v) :: fs => "\'" ++ k ++ "\': " ++ pyRepr v ++ ", " ++ pyReprFields fs

end

/-- Python str() of a JSON value: a string prints bare, the rest as repr. -/
def pyStr : JVal → String
  | .jstr s => s
  | v => pyRepr v

/-- One machine of the snapshot, as the code reads it: name is always
present, maintenance and power are read with containment checks or .get. -/
structure MachineState where
  name : String
  maintenance : Option String
  power : Option Bool
  fields : List (String × JVal)

/-- One room of the snapshot: name always present, lights read with a
containment check, other sensor fields in an association list. -/
structure RoomState where
  name : String
  lights : Option (List Bool)
  fields : List (String × JVal)

/-- The dict returned by the snapshot endpoint as the code reads it.
isEmpty models Python truthiness of the whole dict (an empty dict is
falsy); error models an "error" key (the fetch helper's failure shape);
rooms, machines and cartons_num model .get with defaults [], [], 0. -/
structure RawData where
  isEmpty : Bool
  error : Option String
  rooms : List RoomState
  machines : List MachineState
  cartons_num : Int

/-- What the single outbound GET /data/all can come back as: a parsed body,
a non-2xx HTTP response (requests.exceptions.HTTPError), a transport
failure (requests.exceptions.RequestException), or a 2xx body that is not
JSON (ValueError from response.json()). -/
inductive FetchOutcome where
  | success (data : RawData)
  | httpError (body : String)
  | transportError
  | parseError

/-- The error dict a failed fetch returns. -/
def errorData (msg : String) : RawData :=
  { isEmpty := false, error := some msg, rooms := [], machines := [], cartons_num := 0 }

/-- Embedding of _fetch_all_external_data_internal: one outbound read per
call (the second component counts the GET requests issued), and each of the
three failure modes mapped to its own error dict. -/
def fetch_all_external_data : FetchOutcome → RawData × Nat
  | .success d => (d, 1)
  | .httpError body => (errorData ("Failed to retrieve data: " ++ body), 1)
  | .transportError => (errorData "Network error retrieving data from factory system.", 1)
  | .parseError => (errorData "Error parsing data from factory system.", 1)

/-- A maintenance-status predicate from config.json: either a bare status
string (exact match) or a Mongo-style dict with key $ne (not-equal). -/
inductive MaintPred where
  | exact (status : String)
  | ne (status : String)

/-- Python truthiness of a config predicate value: an empty string is
falsy, a dict holding the $ne key is a nonempty dict, hence truthy. -/
def maintPredTruthy : MaintPred → Bool
  | .exact s => s != ""
  | .ne _ => true

/-- The field mapping an intent resolves to: a snapshot field name and a unit. -/
structure FieldInfo where
  field_name : String
  unit : String

/-- The process-wide configuration read from config.json. -/
structure Config where
  field_mappings : List (String × FieldInfo)
  maintenance_status_map : List (String × MaintPred)

/-- Modelled from the spec: config.json is not among the repository's staged
source files, only app.py is.  Sections 3 and 4.1 of the spec describe the
Catalog it holds: field mappings intent to (field_name, unit) for the sensor
intents, and a maintenance_status_map from maintenance intents to a
target-status predicate, exact-match or not-equal; the spec's design notes
name not_normal as the not-equal-to-"Normal Operation" predicate. -/
def specConfig : Config where
  field_mappings := [
    ("temperature", ⟨"temperature", "degrees Celsius"⟩),
    ("humidity", ⟨"humidity", "percent"⟩),
    ("noise", ⟨"noise", "decibels"⟩),
    ("smoke", ⟨"smoke", "ppm"⟩),
    ("vibration", ⟨"vibration", "millimeters per second"⟩),
    ("power_usage", ⟨"power_usage", "kilowatts"⟩),
    ("lights", ⟨"lights", ""⟩)]
  maintenance_status_map := [
    ("normal_operation", .exact "Normal Operation"),
    ("not_normal", .ne "Normal Operation"),
    ("clogged_filter", .exact "clogged_filter"),
    ("bearing_wear", .exact "bearing_wear")]

/-- The fixed MAINTENANCE_DISPLAY_NAMES table of app.py. -/
def MAINTENANCE_DISPLAY_NAMES : List (String × String) :=
  [("Normal Operation", "operating normally"),
   ("not_normal", "not operating normally"),
   ("clogged_filter", "having a clogged filter"),
   ("bearing_wear", "experiencing bearing wear"),
   ("alerts", "having alerts")]

/-- MAINTENANCE_DISPLAY_NAMES.get(key, key.replace(underscore, space)). -/
def displayNameFor (key : String) : String :=
  (MAINTENANCE_DISPLAY_NAMES.lookup key).getD (replaceUnderscores key)

/-- The alerts filter of get_sensor_data: machine.get("maintenance")
compared unequal to "Normal Operation" (a missing status counts as
abnormal, since None is unequal to the string). -/
def alertsMatches (m : MachineState) : Bool :=
  m.maintenance != some "Normal Operation"

/-- The general maintenance filter: a machine with no maintenance key never
matches; otherwise the config predicate decides. -/
def maintMatches (pred : MaintPred) (m : MachineState) : Bool :=
  match m.maintenance with
  | none => false
  | some s =>
    match pred with
    | .ne t => s != t
    | .exact t => s == t

/-- Whether the intent is a key of maintenance_status_map. -/
def intentInMaintMap (cfg : Config) (intent : Option String) : Bool :=
  match intent with
  | some s => (cfg.maintenance_status_map.lookup s).isSome
  | none => false

/-- The loop that scans machine names case-insensitively.  Python evaluates
entity_name.lower() inside the loop body, so a None entity_name raises
AttributeError exactly when the list is nonempty. -/
def findMachineLower (machines : List MachineState) (entity_name : Option String) :
    Except PyExn (Option MachineState) :=
  match machines with
  | [] => .ok none
  | m :: rest =>
    match entity_name with
    | none => .error .attributeError
    | some en =>
      if pyLower m.name == pyLower en then .ok (some m)
      else findMachineLower rest entity_name

/-- The loop that scans room names case-insensitively, with the same
None-name behaviour as the machine loop. -/
def findRoomLower (rooms : List RoomState) (entity_name : Option String) :
    Except PyExn (Option RoomState) :=
  match rooms with
  | [] => .ok none
  | r :: rest =>
    match entity_name with
    | none => .error .attributeError
    | some en =>
      if pyLower r.name == pyLower en then .ok (some r)
      else findRoomLower rest entity_name

/-- The entity the per-entity lookup resolved: a machine or a room. -/
inductive TargetEntity where
  | machine (m : MachineState)
  | room (r : RoomState)

/-- The name field of a resolved entity (always present). -/
def targetName : TargetEntity → String
  | .machine m => m.name
  | .room r => r.name

/-- Python containment of a field name in the entity's dict. -/
def entityContains : TargetEntity → String → Bool
  | .machine m, f =>
    f == "name" || (f == "maintenance" && m.maintenance.isSome)
      || (f == "power" && m.power.isSome) || (m.fields.lookup f).isSome
  | .room r, f =>
    f == "name" || (f == "lights" && r.lights.isSome) || (r.fields.lookup f).isSome

/-- The field's value in the entity's dict, when present. -/
def entityGet? : TargetEntity → String → Option JVal
  | .machine m, f =>
    if f == "name" then some (.jstr m.name)
    else if f == "maintenance" then m.maintenance.map .jstr
    else if f == "power" then m.power.map .jbool
    else m.fields.lookup f
  | .room r, f =>
    if f == "name" then some (.jstr r.name)
    else if f == "lights" then r.lights.map (fun ls => .jarr (ls.map .jbool))
    else r.fields.lookup f

/-- The get_machine_status branch of get_sensor_data. -/
def gmsBranch (machines_data : List MachineState) (entity_name entity_type : Option String) :
    String :=
  if pyTruthyStrOpt entity_name && (entity_type == some "machine") then
    let en := entity_name.getD ""
    match machines_data.find? (fun m => pyLower m.name == pyLower en) with
    | some tm =>
      match tm.maintenance with
      | some st => "The " ++ en ++ " is currently " ++ displayNameFor st ++ "."
      | none => "Could not find maintenance data for " ++ en ++ "."
    | none => "Could not find maintenance data for " ++ en ++ "."
  else "Please specify a machine name to get its status."

/-- The aggregate-maintenance block of get_sensor_data: some message when
the block returns, none when Python falls through it (intent not a
maintenance key and not alerts, or a falsy predicate value). -/
def maintenanceBranch (cfg : Config) (machines_data : List MachineState)
    (intent entity_name : Option String) : Option String :=
  if intentInMaintMap cfg intent || intent == some "alerts" then
    if intent == some "alerts" then
      let matching := (machines_data.filter alertsMatches).map (fun m => m.name)
      if matching.isEmpty then
        some "There are no machines currently reporting alerts or abnormal status."
      else
        some ("The machines currently reporting alerts or abnormal status are: "
          ++ String.intercalate ", " matching ++ ".")
    else
      match intent with
      | none => none
      | some i =>
        match cfg.maintenance_status_map.lookup i with
        | none => none
        | some pred =>
          if maintPredTruthy pred then
            let matching := (machines_data.filter (maintMatches pred)).map (fun m => m.name)
            let display := displayNameFor i
            if matching.isEmpty then
              if pyTruthyStrOpt entity_name then
                some ("The " ++ entity_name.getD "" ++ " is not currently " ++ display ++ ".")
              else some ("No machines found that are currently " ++ display ++ ".")
            else
              if pyTruthyStrOpt entity_name then
                some ("The " ++ entity_name.getD "" ++ " is currently " ++ display ++ ".")
              else
                some ("The machines currently " ++ display ++ " are: "
                  ++ String.intercalate ", " matching ++ ".")
          else none
  else none

/-- The lights special case of the per-entity lookup: reads the entity's
lights key (KeyError when absent) and indexes the first two entries
(IndexError when fewer than two). -/
def lightsReport (te : TargetEntity) : Except PyExn String :=
  match te with
  | .room r =>
    match r.lights with
    | none => .error .keyError
    | some ls =>
      let states := ls.map (fun b => if b then "on" else "off")
      match states.get? 0, states.get? 1 with
      | some s0, some s1 =>
        .ok ("In the " ++ r.name ++ ", light one is " ++ s0 ++ " and light two is " ++ s1 ++ ".")
      | _, _ => .error .indexError
  | .machine _ => .error .keyError

/-- The no-field fallback line of the per-entity lookup: it interpolates
intent.replace, so a None intent raises AttributeError there. -/
def noFieldMsg (intent : Option String) (te : TargetEntity) : Except PyExn String :=
  match intent with
  | none => .error .attributeError
  | some i => .ok ("No " ++ (replaceUnderscores i) ++ " data found for " ++ targetName te ++ ".")

/-- The per-entity search of get_sensor_data (its loops raise on a None
entity_name exactly when the scanned list is nonempty). -/
def findTarget (rooms : List RoomState) (machines : List MachineState)
    (entity_name entity_type : Option String) : Except PyExn (Option TargetEntity) :=
  if entity_type == some "machine" then
    match findMachineLower machines entity_name with
    | .error e => .error e
    | .ok none => .ok none
    | .ok (some m) => .ok (some (.machine m))
  else if entity_type == some "room" then
    match findRoomLower rooms entity_name with
    | .error e => .error e
    | .ok none => .ok none
    | .ok (some r) => .ok (some (.room r))
  else .ok none

/-- The tail of get_sensor_data: carton counters, per-entity field lookup
and the not-found fallbacks. -/
def restBranch (cfg : Config) (rooms_data : List RoomState) (machines_data : List MachineState)
    (cartons_num : Int) (intent entity_name entity_type : Option String) :
    Except PyExn String :=
  if intent == some "cartons_produced" then
    .ok ("The total number of cartons produced is currently " ++ toString cartons_num ++ ".")
  else if intent == some "cartons_sold" then
    .ok "I can tell you the total cartons, but not specifically cartons sold from this data."
  else
    match findTarget rooms_data machines_data entity_name entity_type with
    | .error e => .error e
    | .ok (some te) =>
      let fieldInfo := match intent with
        | some i => cfg.field_mappings.lookup i
        | none => none
      match fieldInfo with
      | some fi =>
        if entityContains te fi.field_name then
          if (intent == some "lights") && (entity_type == some "room") then
            lightsReport te
          else
            match intent with
            | some i =>
              .ok ("The " ++ (replaceUnderscores i) ++ " of the " ++ targetName te ++ " is "
                ++ pyStr ((entityGet? te fi.field_name).getD .null) ++ " " ++ fi.unit ++ ".")
            | none => .error .attributeError
        else noFieldMsg intent te
      | none => noFieldMsg intent te
    | .ok none =>
      if pyTruthyStrOpt entity_name then
        .ok ("No data found for " ++ entity_name.getD "" ++ ".")
      else .ok "I couldn't find specific data for that request."

/-- Embedding of get_sensor_data: fetches the snapshot from the given world
and resolves the query; a raised Python exception is an `Except.error`. -/
def get_sensor_data (cfg : Config) (w : FetchOutcome)
    (intent entity_name entity_type : Option String) : Except PyExn String :=
  let all_data := (fetch_all_external_data w).1
  match all_data.error with
  | some msg => .ok msg
  | none =>
    if all_data.isEmpty then .ok "I'm sorry, I couldn't retrieve the latest factory data."
    else if intent == some "get_machine_status" then
      .ok (gmsBranch all_data.machines entity_name entity_type)
    else
      match maintenanceBranch cfg all_data.machines intent entity_name with
      | some msg => .ok msg
      | none =>
        restBranch cfg all_data.rooms all_data.machines all_data.cartons_num
          intent entity_name entity_type

/-- An outbound HTTP call perform_action can issue, with the payload fields
the claims speak about (the GET carries no payload; the sale and cartons
payloads also carry a timestamp, which is ambient time, not command data). -/
inductive NetCall where
  | getDataAll
  | postToggleLights (room_name : String) (light_index : Int)
  | postToggleMachine (machine_name : String)
  | postTxSale (cartons_sold : Int) (buyer : String)
  | postTxCartons (cartons_produced : Int)
deriving DecidableEq, Repr

/-- Whether a call mutates remote state: everything but the snapshot read does. -/
def NetCall.isMutating : NetCall → Bool
  | .getDataAll => false
  | _ => true

/-- The fields perform_action reads from a 2xx mutation response body. -/
structure PostBody where
  room_name : Option String
  lights : Option (List Bool)
  machine_name : Option String
  power : Option Bool
  cartons_sold : Option Int
  buyer : Option String
  addition_cartons_produced : Option Int
  cartons_num : Option Int

/-- A response body with none of the read fields present. -/
def emptyPostBody : PostBody :=
  { room_name := none, lights := none, machine_name := none, power := none,
    cartons_sold := none, buyer := none, addition_cartons_produced := none,
    cartons_num := none }

/-- What the one outbound POST of a dispatch can come back as: a parsed 2xx
body; a non-2xx response (status, raw text, and the error field when the
body is JSON and has one); a 2xx body that is not JSON (caught as
json.JSONDecodeError); or any other exception from the request (caught by
the blanket except clause). -/
inductive PostOutcome where
  | ok (body : PostBody)
  | httpError (status : Nat) (text : String) (errorField : Option String)
  | badJson
  | transportError

/-- The replies the outside world gives one dispatch: the snapshot read and
the (at most one) mutation POST. -/
structure ActionWorld where
  fetch : FetchOutcome
  post : PostOutcome

/-- The message of the HTTPError handler of perform_action. -/
def actionHttpErrorMsg (status : Nat) (text : String) (errorField : Option String) : String :=
  if status == 401 || status == 403 then
    "Authentication failed. Please ensure you are logged in."
  else if status == 400 then "Bad request: " ++ errorField.getD text
  else if status == 404 then "Entity not found: " ++ errorField.getD text
  else "Failed to perform action due to a server error: " ++ text

/-- Issue the mutation POST (appending it to the trace) and convert its
outcome to the user-facing message: onOk formats the 2xx body, the failure
branches mirror the except clauses of perform_action. -/
def handlePost (post : PostOutcome) (call : NetCall) (reads : List NetCall)
    (onOk : PostBody → String) : String × List NetCall :=
  match post with
  | .ok body => (onOk body, reads ++ [call])
  | .httpError st text ef => (actionHttpErrorMsg st text ef, reads ++ [call])
  | .badJson =>
    ("An unexpected error occurred while trying to process the response from the factory system.",
     reads ++ [call])
  | .transportError =>
    ("An unexpected error occurred while trying to perform that action.", reads ++ [call])

/-- The message of the local failure when the room or its light data is missing. -/
def couldNotFindLightMsg (ln : Int) (en : String) : String :=
  "Could not find light " ++ toString ln ++ " data for room: " ++ en
    ++ ". Ensure it exists and has light data."

/-- The message when the toggle response lacks a usable lights array. -/
def couldNotConfirmMsg (ln : Int) (en : String) : String :=
  "Successfully sent toggle command for light " ++ toString ln ++ " in " ++ en
    ++ ", but could not confirm its new state."

/-- The one-based light indexing lights[light_num - 1] of the toggle path;
its callers' guards ensure the index is in bounds, so the default is never
read. -/
def lightAt (lights : List Bool) (ln : Int) : Bool :=
  lights.getD (ln - 1).toNat false

/-- The toggle_lights branch of perform_action: guards, pre-read,
compare-before-act, then the one mutation with a zero-based light index. -/
def toggleLightsAction (w : ActionWorld) (entity_name entity_type : Option String)
    (light_num : Option Int) (desired_power_state : Option String) :
    String × List NetCall :=
  if !pyTruthyStrOpt entity_name || entity_type != some "room" || light_num.isNone then
    ("I need a room name and the light number (1 or 2) to toggle lights.", [])
  else
    let en := entity_name.getD ""
    let ln := light_num.getD 0
    if !(ln == 1 || ln == 2) then
      ("Light number must be 1 or 2.", [])
    else
      let all_data := (fetch_all_external_data w.fetch).1
      match all_data.error with
      | some msg => (msg, [.getDataAll])
      | none =>
        match all_data.rooms.find? (fun r => pyLower r.name == pyLower en) with
        | none => (couldNotFindLightMsg ln en, [.getDataAll])
        | some room =>
          match room.lights with
          | none => (couldNotFindLightMsg ln en, [.getDataAll])
          | some lights =>
            if (lights.length : Int) < ln then (couldNotFindLightMsg ln en, [.getDataAll])
            else
              let currentBool := lightAt lights ln
              let currentStr := if currentBool then "on" else "off"
              if pyTruthyStrOpt desired_power_state
                  && (desired_power_state == some currentStr) then
                ("Light " ++ toString ln ++ " in the " ++ en ++ " is already "
                  ++ currentStr ++ ".", [.getDataAll])
              else
                handlePost w.post (.postToggleLights en (ln - 1)) [.getDataAll] (fun result =>
                  match result.lights with
                  | some rl =>
                    if ln ≤ (rl.length : Int) then
                      let ns := if lightAt rl ln then "on" else "off"
                      "Light " ++ toString ln ++ " in " ++ pyStrOptS result.room_name
                        ++ " is now " ++ ns ++ "."
                    else couldNotConfirmMsg ln en
                  | none => couldNotConfirmMsg ln en)

/-- The toggle_machine_power branch of perform_action. -/
def toggleMachineAction (w : ActionWorld) (entity_name entity_type : Option String)
    (desired_power_state : Option String) : String × List NetCall :=
  if !pyTruthyStrOpt entity_name || entity_type != some "machine" then
    ("I need a machine name to toggle its power.", [])
  else
    let en := entity_name.getD ""
    let all_data := (fetch_all_external_data w.fetch).1
    match all_data.error with
    | some msg => (msg, [.getDataAll])
    | none =>
      match all_data.machines.find? (fun m => pyLower m.name == pyLower en) with
      | none => ("Could not find data for machine: " ++ en ++ ".", [.getDataAll])
      | some m =>
        let currentStr := if m.power.getD false then "on" else "off"
        if pyTruthyStrOpt desired_power_state
            && (desired_power_state == some currentStr) then
          ("The " ++ en ++ " is already " ++ currentStr ++ ".", [.getDataAll])
        else
          handlePost w.post (.postToggleMachine en) [.getDataAll] (fun result =>
            let ps := if result.power.getD false then "on" else "off"
            "The " ++ pyStrOptS result.machine_name ++ " is now " ++ ps ++ ".")

/-- A Python value standing where an integer parameter is expected: an
actual int, or a value of some other type (which fails isinstance int). -/
inductive PyNum where
  | int (n : Int)
  | notInt
deriving DecidableEq, Repr

/-- The record_sale branch of perform_action: validation happens before any
network call. -/
def recordSaleAction (w : ActionWorld) (cartons_sold : Option PyNum)
    (buyer : Option String) : String × List NetCall :=
  match cartons_sold with
  | none => ("Please specify a valid number of cartons sold.", [])
  | some .notInt => ("Please specify a valid number of cartons sold.", [])
  | some (.int n) =>
    if n ≤ 0 then ("Please specify a valid number of cartons sold.", [])
    else
      let buyerStr := if pyTruthyStrOpt buyer then buyer.getD "" else "Unknown"
      handlePost w.post (.postTxSale n buyerStr) [] (fun result =>
        "Recorded sale of " ++ pyStrOptI result.cartons_sold ++ " cartons to "
          ++ pyStrOptS result.buyer ++ ".")

/-- The record_cartons branch of perform_action. -/
def recordCartonsAction (w : ActionWorld) (cartons_produced : Option PyNum) :
    String × List NetCall :=
  match cartons_produced with
  | none => ("Please specify a valid number of cartons produced.", [])
  | some .notInt => ("Please specify a valid number of cartons produced.", [])
  | some (.int n) =>
    if n ≤ 0 then ("Please specify a valid number of cartons produced.", [])
    else
      handlePost w.post (.postTxCartons n) [] (fun result =>
        "Recorded production of " ++ pyStrOptI result.addition_cartons_produced
          ++ " cartons. Total cartons now " ++ pyStrOptI result.cartons_num ++ ".")

/-- Embedding of perform_action: the returned string and the trace of
outbound calls the dispatch issued, in order. -/
def perform_action (w : ActionWorld) (intent entity_name entity_type : Option String)
    (light_num : Option Int) (cartons_sold cartons_produced : Option PyNum)
    (buyer user_auth_token desired_power_state : Option String) :
    String × List NetCall :=
  if !pyTruthyStrOpt user_auth_token then
    ("I'm sorry, I need you to log in first to perform this action.", [])
  else if intent == some "toggle_lights" then
    toggleLightsAction w entity_name entity_type light_num desired_power_state
  else if intent == some "toggle_machine_power" then
    toggleMachineAction w entity_name entity_type desired_power_state
  else if intent == some "record_sale" then
    recordSaleAction w cartons_sold buyer
  else if intent == some "record_cartons" then
    recordCartonsAction w cartons_produced
  else
    ("I'm sorry, I don't know how to perform that specific action yet.", [])

/-- Python dict.get(key, default) as the extraction chain of parse_command
uses it: on a non-dict value .get raises AttributeError; a key present with
a null value yields null, not the default. -/
def pyGet (v : JVal) (key : String) (default : JVal) : Except PyExn JVal :=
  match v with
  | .jobj fs =>
    match fs.lookup key with
    | some x => .ok x
    | none => .ok default
  | _ => .error .attributeError

/-- Python subscription v[i] for a nonnegative index: a list yields the
element or IndexError; a string yields the one-character string or
IndexError; a dict raises KeyError (its keys are strings, not ints); null,
booleans and numbers are not subscriptable (TypeError). -/
def pyIndex (v : JVal) (i : Nat) : Except PyExn JVal :=
  match v with
  | .jarr xs =>
    match xs.get? i with
    | some x => .ok x
    | none => .error .indexError
  | .jstr s =>
    match s.data.get? i with
    | some c => .ok (.jstr (String.mk [c]))
    | none => .error .indexError
  | .jobj _ => .error .keyError
  | _ => .error .typeError

/-- Python truthiness of a JSON value. -/
def jvalTruthy : JVal → Bool
  | .null => false
  | .jbool b => b
  | .jint n => n != 0
  | .jstr s => s != ""
  | .jarr xs => !xs.isEmpty
  | .jobj fs => !fs.isEmpty

/-- Python str.title() (ASCII approximation): a letter is uppercased when
the previous character is not a letter, lowercased otherwise. -/
def pyTitleGo : Bool → List Char → List Char
  | _, [] => []
  | prevAlpha, c :: rest =>
    let c2 := if c.isAlpha then (if prevAlpha then c.toLower else c.toUpper) else c
    c2 :: pyTitleGo c.isAlpha rest

/-- Python str.title() on a whole string. -/
def pyTitle (s : String) : String := ⟨pyTitleGo false s.data⟩

/-- The 8-tuple parse_command returns; each component is a raw Python value
as the generator's JSON supplied it (null on every failure path). -/
structure GeminiParse where
  intent : JVal
  entity_name : JVal
  entity_type : JVal
  light_num : JVal
  cartons_sold : JVal
  cartons_produced : JVal
  buyer : JVal
  desired_power_state : JVal

/-- The all-null tuple: the designed "I don't understand" signal. -/
def allNullParse : GeminiParse :=
  ⟨.null, .null, .null, .null, .null, .null, .null, .null⟩

/-- What the one generator call can come back as: a transport failure or a
non-2xx status (both raise requests.exceptions.RequestException and are
caught together), or a 2xx response whose body is JSON (some) or not
(none, which raises json.JSONDecodeError from response.json()). -/
inductive GeminiOutcome where
  | transportError
  | ok (body : Option JVal)

/-- The exceptions the inner except clause of parse_command catches:
json.JSONDecodeError, IndexError and KeyError; TypeError and
AttributeError are not among them. -/
def caughtInParse : PyExn → Bool
  | .jsonDecodeError => true
  | .indexError => true
  | .keyError => true
  | .attributeError => false
  | .typeError => false

/-- The extraction chain over the generator response body:
body.get("candidates", [])[0].get("content", \x7b\x7d).get("parts", [])[0]
.get("text", an empty JSON object string). -/
def geminiLlmText (body : JVal) : Except PyExn JVal := do
  let cands ← pyGet body "candidates" (.jarr [])
  let c0 ← pyIndex cands 0
  let content ← pyGet c0 "content" (.jobj [])
  let parts ← pyGet content "parts" (.jarr [])
  let p0 ← pyIndex parts 0
  pyGet p0 "text" (.jstr "\x7b\x7d")

/-- The body of the try block of parse_command past the HTTP call:
extract the generated text, json.loads it (jsonDecode models the external
JSON codec; none = the text is not valid JSON, TypeError when the text
field is not a string), read the eight fields, and title-case a truthy
entity_name (a truthy non-string would raise AttributeError at .title()). -/
def parseGeminiBody (jsonDecode : String → Option JVal) (body : JVal) :
    Except PyExn GeminiParse := do
  let textV ← geminiLlmText body
  let textS ← match textV with
    | .jstr s => Except.ok s
    | _ => Except.error PyExn.typeError
  let parsed ← match jsonDecode textS with
    | some v => Except.ok v
    | none => Except.error PyExn.jsonDecodeError
  let intent ← pyGet parsed "intent" .null
  let entity_name0 ← pyGet parsed "entity_name" .null
  let entity_type ← pyGet parsed "entity_type" .null
  let light_num ← pyGet parsed "light_num" .null
  let cartons_sold ← pyGet parsed "cartons_sold" .null
  let cartons_produced ← pyGet parsed "cartons_produced" .null
  let buyer ← pyGet parsed "buyer" .null
  let desired_power_state ← pyGet parsed "desired_power_state" .null
  let entity_name ← match entity_name0 with
    | .jstr s => Except.ok (if s != "" then JVal.jstr (pyTitle s) else JVal.jstr s)
    | v => if jvalTruthy v then Except.error PyExn.attributeError else Except.ok v
  Except.ok ⟨intent, entity_name, entity_type, light_num, cartons_sold,
    cartons_produced, buyer, desired_power_state⟩

/-- Embedding of parse_command: no API key short-circuits to the all-null
tuple; a RequestException (transport failure or raise_for_status) and a
non-JSON response body are caught to the all-null tuple; the inner
extraction runs under an except clause that catches only
json.JSONDecodeError, IndexError and KeyError — any other exception
escapes parse_command. -/
def parse_command (apiKey : Option String) (jsonDecode : String → Option JVal)
    (w : GeminiOutcome) : Except PyExn GeminiParse :=
  if !pyTruthyStrOpt apiKey then .ok allNullParse
  else
    match w with
    | .transportError => .ok allNullParse
    | .ok none => .ok allNullParse
    | .ok (some body) =>
      match parseGeminiBody jsonDecode body with
      | .ok p => .ok p
      | .error e => if caughtInParse e then .ok allNullParse else .error e

/-! Sample data used by concrete evaluations and witnesses. -/

/-- A machine in normal operation with a temperature reading. -/
def furnaceMachine : MachineState :=
  { name := "Furnace", maintenance := some "Normal Operation", power := some true,
    fields := [("temperature", .jint 82)] }

/-- A machine reporting a clogged filter. -/
def cleanerMachine : MachineState :=
  { name := "Cleaner", maintenance := some "clogged_filter", power := some false,
    fields := [] }

/-- A room with two lights, the first on. -/
def machineRoom : RoomState :=
  { name := "Machine Room", lights := some [true, false], fields := [] }

/-- A small well-formed snapshot. -/
def sampleSnapshot : RawData :=
  { isEmpty := false, error := none, rooms := [machineRoom],
    machines := [furnaceMachine, cleanerMachine], cartons_num := 40 }

/-- A POST reply body reporting the toggled light pair and machine power. -/
def samplePostBody : PostBody :=
  { room_name := some "Machine Room", lights := some [true, true],
    machine_name := some "Furnace", power := some false, cartons_sold := none,
    buyer := none, addition_cartons_produced := none, cartons_num := none }

/-- A world whose read succeeds with the sample snapshot and whose POST
reply is the sample body. -/
def sampleWorld : ActionWorld :=
  { fetch := .success sampleSnapshot, post := .ok samplePostBody }

/-! Helper lemmas about strings, shared by the claims below. -/

/-- Appending distributes over the character lists of strings. -/
theorem string_data_append (a b : String) : (a ++ b).data = a.data ++ b.data := by
  cases a; cases b; rfl

/-- A string starting with one character never equals an append whose first
part starts with a different character. -/
theorem append_ne_of_head_ne (a b c : String) (x : Char)
    (ha : a.data.head? = some x) (hc : c.data.head? ≠ some x) : a ++ b ≠ c := by
  intro he
  apply hc
  rw [← he, string_data_append]
  cases hd : a.data with
  | nil => rw [hd] at ha; simp at ha
  | cons y ys =>
    rw [hd] at ha
    simpa using ha

/-! The claims. -/

/-- C7: the snapshot fetcher issues exactly one outbound read per call, and
its three failure modes — non-2xx HTTP response, transport failure and
malformed JSON body — map to three pairwise distinct error results. -/
theorem fetch_one_read_and_distinct_failures :
    (∀ w : FetchOutcome, (fetch_all_external_data w).2 = 1)
  ∧ (∀ body : String,
      (fetch_all_external_data (.httpError body)).1
          ≠ (fetch_all_external_data .transportError).1
    ∧ (fetch_all_external_data (.httpError body)).1
          ≠ (fetch_all_external_data .parseError).1)
  ∧ (fetch_all_external_data .transportError).1
      ≠ (fetch_all_external_data .parseError).1 := by
  refine ⟨fun w => by cases w <;> rfl, fun body => ⟨fun h => ?_, fun h => ?_⟩, fun h => ?_⟩
  · have h2 : "Failed to retrieve data: " ++ body
        = "Network error retrieving data from factory system." := by
      simpa [fetch_all_external_data, errorData] using congrArg RawData.error h
    exact append_ne_of_head_ne "Failed to retrieve data: " body
      "Network error retrieving data from factory system." 'F' (by decide) (by decide) h2
  · have h2 : "Failed to retrieve data: " ++ body
        = "Error parsing data from factory system." := by
      simpa [fetch_all_external_data, errorData] using congrArg RawData.error h
    exact append_ne_of_head_ne "Failed to retrieve data: " body
      "Error parsing data from factory system." 'F' (by decide) (by decide) h2
  · have h2 := congrArg RawData.error h
    simp [fetch_all_external_data, errorData] at h2

/-- C2: with an empty or missing auth token, each of the four actuation
intents fails immediately with the authentication-required message, and the
trace of outbound calls is empty. -/
theorem action_no_token_no_network
    (w : ActionWorld) (intent : String)
    (hintent : intent = "toggle_lights" ∨ intent = "toggle_machine_power"
      ∨ intent = "record_sale" ∨ intent = "record_cartons")
    (en et : Option String) (ln : Option Int) (cs cp : Option PyNum)
    (b dps tok : Option String) (htok : pyTruthyStrOpt tok = false) :
    perform_action w (some intent) en et ln cs cp b tok dps
      = ("I'm sorry, I need you to log in first to perform this action.", []) := by
  rcases hintent with rfl | rfl | rfl | rfl <;> simp [perform_action, htok]

/-- Witness for C2 at a concrete input: no token on record_sale. -/
theorem action_no_token_no_network_witness :
    perform_action sampleWorld (some "record_sale") none none none none none none none none
      = ("I'm sorry, I need you to log in first to perform this action.", []) :=
  action_no_token_no_network sampleWorld "record_sale"
    (Or.inr (Or.inr (Or.inl rfl))) none none none none none none none none rfl

/-- C4: an absent, non-integer or non-positive carton count makes
record_sale and record_cartons return the clarification message locally,
with an empty trace of outbound calls. -/
theorem record_validation_fails_locally
    (w : ActionWorld) (tok : Option String) (htok : pyTruthyStrOpt tok = true)
    (en et : Option String) (ln : Option Int) (b dps : Option String) :
    (∀ (cs cp : Option PyNum),
      (cs = none ∨ cs = some .notInt ∨ ∃ n : Int, cs = some (.int n) ∧ n ≤ 0) →
      perform_action w (some "record_sale") en et ln cs cp b tok dps
        = ("Please specify a valid number of cartons sold.", []))
  ∧ (∀ (cs cp : Option PyNum),
      (cp = none ∨ cp = some .notInt ∨ ∃ n : Int, cp = some (.int n) ∧ n ≤ 0) →
      perform_action w (some "record_cartons") en et ln cs cp b tok dps
        = ("Please specify a valid number of cartons produced.", [])) := by
  constructor
  · rintro cs cp (rfl | rfl | ⟨n, rfl, hn⟩)
    · simp [perform_action, htok, recordSaleAction]
    · simp [perform_action, htok, recordSaleAction]
    · simp [perform_action, htok, recordSaleAction, hn]
  · rintro cs cp (rfl | rfl | ⟨n, rfl, hn⟩)
    · simp [perform_action, htok, recordCartonsAction]
    · simp [perform_action, htok, recordCartonsAction]
    · simp [perform_action, htok, recordCartonsAction, hn]

/-- Witness for C4 at a concrete input: record_cartons with -5 cartons. -/
theorem record_validation_fails_locally_witness :
    perform_action sampleWorld (some "record_cartons") none none none none
        (some (.int (-5))) none (some "token") none
      = ("Please specify a valid number of cartons produced.", []) :=
  (record_validation_fails_locally sampleWorld (some "token") rfl none none none none
      none).2 none (some (.int (-5))) (Or.inr (Or.inr ⟨-5, rfl, by norm_num⟩))

/-- C5 divergence: on a snapshot holding machines, a query whose
entity_type is set while entity_name is null raises AttributeError inside
the case-insensitive name loop (None.lower()) instead of returning a
"no data found" message; the same query naming an unknown entity does
return the message. -/
theorem get_sensor_data_null_name_raises :
    get_sensor_data specConfig (.success sampleSnapshot) (some "temperature")
        none (some "machine")
      = .error .attributeError
  ∧ get_sensor_data specConfig (.success sampleSnapshot) (some "temperature")
        (some "Teleporter") (some "machine")
      = .ok "No data found for Teleporter." := by
  exact ⟨rfl, rfl⟩

/-- C8 divergence: parse_command returns the all-null tuple when the API
key is missing, on transport or HTTP failure, and on a non-JSON response
body — but a malformed generator body whose candidates field is JSON null
raises TypeError (None is not subscriptable), which the except clause
(json.JSONDecodeError, IndexError, KeyError) does not catch. -/
theorem parse_command_malformed_response_raises :
    parse_command (some "key") (fun _ => none) (.ok (some (.jobj [("candidates", .null)])))
      = .error .typeError
  ∧ parse_command none (fun _ => none) (.ok (some (.jobj [("candidates", .null)])))
      = .ok allNullParse
  ∧ parse_command (some "key") (fun _ => none) .transportError = .ok allNullParse
  ∧ parse_command (some "key") (fun _ => none) (.ok none) = .ok allNullParse := by
  exact ⟨rfl, rfl, rfl, rfl⟩

/-- Evaluation of the aggregate-maintenance block at the alerts intent: it
always returns, with the fixed not-equal-to-"Normal Operation" filter,
whatever the configuration. -/
theorem maintenanceBranch_alerts (cfg : Config) (ms : List MachineState) (en : Option String) :
    maintenanceBranch cfg ms (some "alerts") en
      = some (if ((ms.filter (fun m => m.maintenance != some "Normal Operation")).map
                  (fun m => m.name)).isEmpty
              then "There are no machines currently reporting alerts or abnormal status."
              else "The machines currently reporting alerts or abnormal status are: "
                ++ String.intercalate ", "
                    ((ms.filter (fun m => m.maintenance != some "Normal Operation")).map
                      (fun m => m.name)) ++ ".") := by
  have ha : alertsMatches
      = (fun m : MachineState => m.maintenance != some "Normal Operation") := rfl
  have h1 : ((some "alerts" : Option String) == some "alerts") = true := rfl
  simp [maintenanceBranch, ha, h1]
  split <;> rfl

/-- C9: the alerts intent selects exactly the machines whose maintenance
status is not "Normal Operation" — a fixed predicate, independent of the
configuration — collecting names in snapshot order; it answers with the
no-machines message when none match, else a comma-joined list sentence. -/
theorem alerts_lists_abnormal_machines
    (cfg : Config) (d : RawData) (hde : d.error = none) (hne : d.isEmpty = false)
    (en et : Option String) :
    get_sensor_data cfg (.success d) (some "alerts") en et
      = .ok (if ((d.machines.filter (fun m => m.maintenance != some "Normal Operation")).map
                  (fun m => m.name)).isEmpty
             then "There are no machines currently reporting alerts or abnormal status."
             else "The machines currently reporting alerts or abnormal status are: "
               ++ String.intercalate ", "
                   ((d.machines.filter (fun m => m.maintenance != some "Normal Operation")).map
                     (fun m => m.name)) ++ ".") := by
  have hb := maintenanceBranch_alerts cfg d.machines en
  simp [get_sensor_data, fetch_all_external_data, hde, hne, hb]

/-- Witness for C9 at a concrete input: the sample snapshot has one
abnormal machine, the Cleaner. -/
theorem alerts_lists_abnormal_machines_witness :
    get_sensor_data specConfig (.success sampleSnapshot) (some "alerts") none none
      = .ok "The machines currently reporting alerts or abnormal status are: Cleaner." :=
  alerts_lists_abnormal_machines specConfig sampleSnapshot rfl rfl none none

/-- Evaluation of the aggregate-maintenance block at a not_normal intent
mapped to the not-equal predicate, with a truthy entity name: both answers
are single-entity phrasings. -/
theorem maintenanceBranch_notNormal (cfg : Config)
    (hcfg : cfg.maintenance_status_map.lookup "not_normal" = some (.ne "Normal Operation"))
    (ms : List MachineState) (en : String) (hen : (en != "") = true) :
    maintenanceBranch cfg ms (some "not_normal") (some en)
      = some (if ((ms.filter (maintMatches (.ne "Normal Operation"))).map
                  (fun m => m.name)).isEmpty
              then "The " ++ en ++ " is not currently not operating normally."
              else "The " ++ en ++ " is currently not operating normally.") := by
  have h1 : ((some "not_normal" : Option String) == some "alerts") = false := rfl
  have hdisp : displayNameFor "not_normal" = "not operating normally" := rfl
  simp [maintenanceBranch, intentInMaintMap, hcfg, h1, maintPredTruthy, pyTruthyStrOpt,
    hen, hdisp]
  split <;> (simp only [String.append_assoc]; rfl)

/-- C6: an aggregate-maintenance intent key (not_normal, mapped to the
not-equal-to-"Normal Operation" predicate) given together with a named
entity answers in single-entity style about that entity, never with the
full-factory list of matching machines. -/
theorem not_normal_named_entity_single_style
    (cfg : Config)
    (hcfg : cfg.maintenance_status_map.lookup "not_normal" = some (.ne "Normal Operation"))
    (d : RawData) (hde : d.error = none) (hne : d.isEmpty = false) (et : Option String) :
    get_sensor_data cfg (.success d) (some "not_normal") (some "Furnace") et
      = .ok (if ((d.machines.filter (maintMatches (.ne "Normal Operation"))).map
                  (fun m => m.name)).isEmpty
             then "The Furnace is not currently not operating normally."
             else "The Furnace is currently not operating normally.") := by
  have hb := maintenanceBranch_notNormal cfg hcfg d.machines "Furnace" rfl
  simp [get_sensor_data, fetch_all_external_data, hde, hne, hb]

/-- Witness for C6 at a concrete input: the sample snapshot has an abnormal
machine, so the answer is the single-entity "currently" phrasing, not the
list sentence. -/
theorem not_normal_named_entity_single_style_witness :
    get_sensor_data specConfig (.success sampleSnapshot) (some "not_normal")
        (some "Furnace") (some "machine")
      = .ok "The Furnace is currently not operating normally." :=
  not_normal_named_entity_single_style specConfig rfl sampleSnapshot rfl rfl (some "machine")

/-- C1: a toggle command carrying a desired_power_state equal to the
observed light or power state short-circuits with the "already" message,
and the trace holds only the snapshot read — no mutating request. -/
theorem toggle_already_no_mutation
    (w : ActionWorld) (tok : Option String) (htok : pyTruthyStrOpt tok = true)
    (d : RawData) (hw : w.fetch = .success d) (hde : d.error = none) :
    (∀ (en : String) (ln : Int) (room : RoomState) (lights : List Bool),
      pyTruthyStrOpt (some en) = true →
      (ln == 1 || ln == 2) = true →
      d.rooms.find? (fun r => pyLower r.name == pyLower en) = some room →
      room.lights = some lights →
      ¬ ((lights.length : Int) < ln) →
      perform_action w (some "toggle_lights") (some en) (some "room") (some ln) none none
          none tok (some (if lightAt lights ln then "on" else "off"))
        = ("Light " ++ toString ln ++ " in the " ++ en ++ " is already "
            ++ (if lightAt lights ln then "on" else "off") ++ ".",
           [NetCall.getDataAll]))
  ∧ (∀ (en : String) (m : MachineState),
      pyTruthyStrOpt (some en) = true →
      d.machines.find? (fun mm => pyLower mm.name == pyLower en) = some m →
      perform_action w (some "toggle_machine_power") (some en) (some "machine") none none
          none none tok (some (if m.power.getD false then "on" else "off"))
        = ("The " ++ en ++ " is already " ++ (if m.power.getD false then "on" else "off")
            ++ ".", [NetCall.getDataAll])) := by
  constructor
  · intro en ln room lights hen hln hfind hlts hlen
    have hon : pyTruthyStrOpt (some "on") = true := rfl
    have hoff : pyTruthyStrOpt (some "off") = true := rfl
    cases hb : lightAt lights ln <;>
      simp [perform_action, htok, toggleLightsAction, hen, hln, hw,
        fetch_all_external_data, hde, hfind, hlts, hlen, hb, hon, hoff]
  · intro en m hen hfind
    have hon : pyTruthyStrOpt (some "on") = true := rfl
    have hoff : pyTruthyStrOpt (some "off") = true := rfl
    cases hb : m.power.getD false <;>
      simp [perform_action, htok, toggleMachineAction, hen, hw,
        fetch_all_external_data, hde, hfind, hb, hon, hoff]

/-- Witness for C1 at a concrete input: light 1 of the Machine Room is
already on, so the dispatch only reads. -/
theorem toggle_already_no_mutation_witness :
    perform_action sampleWorld (some "toggle_lights") (some "Machine Room") (some "room")
        (some 1) none none none (some "token") (some "on")
      = ("Light 1 in the Machine Room is already on.", [NetCall.getDataAll]) :=
  (toggle_already_no_mutation sampleWorld (some "token") rfl sampleSnapshot rfl rfl).1
    "Machine Room" 1 machineRoom [true, false] rfl rfl rfl rfl (by decide)

/-- C3: a toggle_lights dispatch that reaches the mutation sends the
zero-based index light_num - 1 in the payload while the response text
reports the one-based light_num (light_num = 1 is transmitted as 0 and
reported as "Light 1"); a light_num outside one and two, or a missing room
entity, fails locally with an empty trace. -/
theorem toggle_lights_zero_based_index
    (w : ActionWorld) (tok : Option String) (htok : pyTruthyStrOpt tok = true) :
    (∀ (d : RawData) (en : String) (ln : Int) (room : RoomState) (lights : List Bool)
        (dps : Option String) (result : PostBody) (rl : List Bool),
      w.fetch = .success d → d.error = none →
      pyTruthyStrOpt (some en) = true →
      (ln == 1 || ln == 2) = true →
      d.rooms.find? (fun r => pyLower r.name == pyLower en) = some room →
      room.lights = some lights →
      ¬ ((lights.length : Int) < ln) →
      (pyTruthyStrOpt dps
        && (dps == some (if lightAt lights ln then "on" else "off"))) = false →
      w.post = .ok result →
      result.lights = some rl →
      ln ≤ (rl.length : Int) →
      perform_action w (some "toggle_lights") (some en) (some "room") (some ln) none none
          none tok dps
        = ("Light " ++ toString ln ++ " in " ++ pyStrOptS result.room_name ++ " is now "
            ++ (if lightAt rl ln then "on" else "off") ++ ".",
           [NetCall.getDataAll, NetCall.postToggleLights en (ln - 1)]))
  ∧ (∀ (en : String) (ln : Int) (dps : Option String),
      pyTruthyStrOpt (some en) = true →
      (ln == 1 || ln == 2) = false →
      perform_action w (some "toggle_lights") (some en) (some "room") (some ln) none none
          none tok dps
        = ("Light number must be 1 or 2.", []))
  ∧ (∀ (en et : Option String) (ln : Option Int) (dps : Option String),
      (!pyTruthyStrOpt en || et != some "room" || ln.isNone) = true →
      perform_action w (some "toggle_lights") en et ln none none none tok dps
        = ("I need a room name and the light number (1 or 2) to toggle lights.", [])) := by
  refine ⟨?_, ?_, ?_⟩
  · intro d en ln room lights dps result rl hw hde hen hln hfind hlts hlen hdps hpost hrl hrlen
    simp [perform_action, htok, toggleLightsAction, hen, hln, hw,
      fetch_all_external_data, hde, hfind, hlts, hlen, hdps, hpost, handlePost, hrl, hrlen]
  · intro en ln dps hen hln
    simp [perform_action, htok, toggleLightsAction, hen, hln]
  · intro en et ln dps hguard
    simp [perform_action, htok, toggleLightsAction, hguard]

/-- Witness for C3 at a concrete input: light 1 with desired state off
while the observed state is on reaches the mutation, transmits index 0,
and the reply is reported one-based; the two local failures also hold. -/
theorem toggle_lights_zero_based_index_witness :
    perform_action sampleWorld (some "toggle_lights") (some "Machine Room") (some "room")
        (some 1) none none none (some "token") (some "off")
      = ("Light 1 in Machine Room is now on.",
         [NetCall.getDataAll, NetCall.postToggleLights "Machine Room" 0])
  ∧ perform_action sampleWorld (some "toggle_lights") (some "Machine Room") (some "room")
        (some 3) none none none (some "token") none
      = ("Light number must be 1 or 2.", [])
  ∧ perform_action sampleWorld (some "toggle_lights") (some "Machine Room") none
        (some 1) none none none (some "token") none
      = ("I need a room name and the light number (1 or 2) to toggle lights.", []) :=
  ⟨(toggle_lights_zero_based_index sampleWorld (some "token") rfl).1 sampleSnapshot
      "Machine Room" 1 machineRoom [true, false] (some "off") samplePostBody [true, true]
      rfl rfl rfl rfl rfl rfl (by decide) rfl rfl rfl (by decide),
   (toggle_lights_zero_based_index sampleWorld (some "token") rfl).2.1 "Machine Room" 3
      none rfl rfl,
   (toggle_lights_zero_based_index sampleWorld (some "token") rfl).2.2 (some "Machine Room")
      none (some 1) none rfl⟩

/-- C10: with a null desired_power_state a toggle dispatch never
short-circuits: once the pre-read succeeds and the target entity is found,
the trace is exactly the read followed by the one mutating request,
whatever the observed current state and whatever the mutation reply. -/
theorem toggle_null_desired_always_mutates
    (w : ActionWorld) (tok : Option String) (htok : pyTruthyStrOpt tok = true)
    (d : RawData) (hw : w.fetch = .success d) (hde : d.error = none) :
    (∀ (en : String) (ln : Int) (room : RoomState) (lights : List Bool),
      pyTruthyStrOpt (some en) = true →
      (ln == 1 || ln == 2) = true →
      d.rooms.find? (fun r => pyLower r.name == pyLower en) = some room →
      room.lights = some lights →
      ¬ ((lights.length : Int) < ln) →
      (perform_action w (some "toggle_lights") (some en) (some "room") (some ln) none none
          none tok none).2
        = [NetCall.getDataAll, NetCall.postToggleLights en (ln - 1)])
  ∧ (∀ (en : String) (m : MachineState),
      pyTruthyStrOpt (some en) = true →
      d.machines.find? (fun mm => pyLower mm.name == pyLower en) = some m →
      (perform_action w (some "toggle_machine_power") (some en) (some "machine") none none
          none none tok none).2
        = [NetCall.getDataAll, NetCall.postToggleMachine en]) := by
  constructor
  · intro en ln room lights hen hln hfind hlts hlen
    have h0 : pyTruthyStrOpt none = false := rfl
    cases hpost : w.post <;>
      simp [perform_action, htok, toggleLightsAction, hen, hln, hw,
        fetch_all_external_data, hde, hfind, hlts, hlen, h0, hpost, handlePost]
  · intro en m hen hfind
    have h0 : pyTruthyStrOpt none = false := rfl
    cases hpost : w.post <;>
      simp [perform_action, htok, toggleMachineAction, hen, hw,
        fetch_all_external_data, hde, hfind, h0, hpost, handlePost]

/-- Witness for C10 at a concrete input: a bare toggle of the Furnace with
no desired state issues the read and then exactly one mutation. -/
theorem toggle_null_desired_always_mutates_witness :
    (perform_action sampleWorld (some "toggle_machine_power") (some "Furnace")
        (some "machine") none none none none (some "token") none).2
      = [NetCall.getDataAll, NetCall.postToggleMachine "Furnace"] :=
  (toggle_null_desired_always_mutates sampleWorld (some "token") rfl sampleSnapshot
      rfl rfl).2 "Furnace" furnaceMachine rfl rfl

end SmartFactory
